import Mathlib

/-!
Shallow embedding of the QBox backend's room-lifecycle core
(models/Room.js, alias src/unnamed/part_001, and routes/rooms.js),
together with the question upvote toggle described by the spec.

Timestamps are naturals (milliseconds), Mongo ObjectIds are naturals,
and the document store is a list of records.  Route handlers become
pure functions from the store (plus request data) to an outcome and
the updated store.
-/

/-- Room status enum from the schema: `enum: ['active', 'closed']`. -/
inductive RoomStatus
  | active
  | closed
deriving DecidableEq, Repr

/-- A Room document (models/Room.js).  `lecturer` is `none` for one-time
rooms, matching `required: false // Allow null for one-time rooms`. -/
structure Room where
  id : Nat
  roomName : String
  roomCode : String
  lecturer : Option Nat
  lecturerName : String
  questionsVisible : Bool
  isOneTime : Bool
  expiresAt : Option Nat
  status : RoomStatus
  questionCount : Nat
  studentsCount : Nat
  createdAt : Nat
  closedAt : Option Nat
deriving DecidableEq, Repr

/-- A Question document (shape from the repository README's Question model;
only the fields the room routes and the upvote toggle touch). -/
structure Question where
  id : Nat
  room : Nat
  questionText : String
  studentTag : String
  upvotes : Nat
  upvotedBy : List String
deriving DecidableEq, Repr

/-- The 36-symbol alphabet of `generateRoomCode`:
`'ABCDEFGHIJKLMNOPQRSTUVWXYZ0123456789'`. -/
def alphabetList : List Char := "ABCDEFGHIJKLMNOPQRSTUVWXYZ0123456789".toList

theorem alphabetList_length : alphabetList.length = 36 := rfl

/-- `characters.charAt(i)` for an in-range index. -/
def charOf (i : Fin 36) : Char :=
  alphabetList.get (Fin.cast alphabetList_length.symm i)

/-- The k-th candidate code: six draws from the random stream, one char each
(`roomCode += characters.charAt(Math.floor(Math.random() * characters.length))`). -/
def drawCode (rand : Nat → Fin 36) (k : Nat) : String :=
  String.mk ((List.range 6).map (fun i => charOf (rand (6 * k + i))))

/-- `await this.findOne({ roomCode })` viewed as a Boolean existence check:
no status filter, so closed rooms count too. -/
def existsCode (store : List Room) (code : String) : Bool :=
  store.any (fun r => decide (r.roomCode = code))

/-- The `while (exists)` re-draw loop of `generateRoomCode`, with explicit
fuel standing in for the unbounded JS loop; `k` indexes the candidate
currently being drawn, and a successful run returns the code together with
the index of the draw that produced it. -/
def generateRoomCodeAux (store : List Room) (rand : Nat → Fin 36) :
    Nat → Nat → Option (String × Nat)
  | 0, _ => none
  | fuel + 1, k =>
    let code := drawCode rand k
    if existsCode store code then generateRoomCodeAux store rand fuel (k + 1)
    else some (code, k)

/-- `Room.generateRoomCode()` starting from the first draw. -/
def generateRoomCode (store : List Room) (rand : Nat → Fin 36) (fuel : Nat) :
    Option (String × Nat) :=
  generateRoomCodeAux store rand fuel 0

/-- JS `s.toUpperCase()` restricted to the characters that occur here (ASCII). -/
def toUpperString (s : String) : String :=
  String.mk (s.toList.map Char.toUpper)

/-- JS `s.trim()`: strip leading and trailing whitespace. -/
def isSpaceChar (c : Char) : Bool :=
  decide (c = ' ') || decide (c = '\t') || decide (c = '\n') || decide (c = '\r')

def jsTrim (s : String) : String :=
  String.mk (((s.toList.dropWhile isSpaceChar).reverse.dropWhile isSpaceChar).reverse)

/-- `Room.findById(id)`. -/
def findById (store : List Room) (roomId : Nat) : Option Room :=
  store.find? (fun r => decide (r.id = roomId))

/-- `Room.findOne({ roomCode: code, status: 'active' })` from the join route. -/
def findOneActive (store : List Room) (code : String) : Option Room :=
  store.find? (fun r => decide (r.roomCode = code) && decide (r.status = RoomStatus.active))

/-- `room.save()`: write the (id-identified) document back to the store. -/
def saveRoom (store : List Room) (r : Room) : List Room :=
  store.map (fun x => if x.id = r.id then r else x)

/-- Outcomes of the room route handlers, one constructor per distinct
HTTP response shape. -/
inductive ApiOutcome
  | ok (room : Room)
  | okDeleted
  | badRequest
  | notFound
  | forbidden
  | alreadyClosedError
  | serverError
deriving DecidableEq, Repr

/-- The read-only payload of a successful join
(`roomId, roomName, roomCode, lecturerName, questionsVisible, status`). -/
structure JoinSummary where
  roomId : Nat
  roomName : String
  roomCode : String
  lecturerName : String
  questionsVisible : Bool
  status : RoomStatus
deriving DecidableEq, Repr

def roomSummary (r : Room) : JoinSummary :=
  { roomId := r.id, roomName := r.roomName, roomCode := r.roomCode,
    lecturerName := r.lecturerName, questionsVisible := r.questionsVisible,
    status := r.status }

inductive JoinResult
  | badRequest
  | notFound
  | joined (s : JoinSummary)
deriving DecidableEq, Repr

/-- `POST /api/rooms/join` (routes/rooms.js): uppercases the submitted code,
looks up a single document filtered by `status: 'active'`, answers 404 with
`'Invalid room code or room is closed'` when that lookup is empty, and
otherwise increments `studentsCount`, saves, and returns the summary.
The handler never consults `expiresAt` or the clock. -/
def joinRoom (store : List Room) (code : String) : JoinResult × List Room :=
  if code = "" then (JoinResult.badRequest, store)
  else
    match findOneActive store (toUpperString code) with
    | none => (JoinResult.notFound, store)
    | some room =>
      let room1 := { room with studentsCount := room.studentsCount + 1 }
      (JoinResult.joined (roomSummary room1), saveRoom store room1)

inductive CreateResult
  | badRequest
  | duplicateName
  | created (r : Room)
deriving DecidableEq, Repr

/-- `POST /api/rooms` (authenticated): rejects a missing name, checks
`findOne({ lecturer: userId, roomName: roomName.trim() })` — note: no
status filter — and otherwise creates the room with schema defaults
(the schema itself trims `roomName`). -/
def createRoom (store : List Room) (userId : Nat) (userName : String)
    (roomName : String) (questionsVisible : Option Bool)
    (newId : Nat) (newCode : String) (now : Nat) : CreateResult × List Room :=
  if roomName = "" then (CreateResult.badRequest, store)
  else
    match store.find? (fun r =>
        decide (r.lecturer = some userId) && decide (r.roomName = jsTrim roomName)) with
    | some _ => (CreateResult.duplicateName, store)
    | none =>
      let room : Room :=
        { id := newId, roomName := jsTrim roomName, roomCode := newCode,
          lecturer := some userId, lecturerName := userName,
          questionsVisible := questionsVisible.getD true, isOneTime := false,
          expiresAt := none, status := RoomStatus.active, questionCount := 0,
          studentsCount := 0, createdAt := now, closedAt := none }
      (CreateResult.created room, store ++ [room])

/-- `GET /api/rooms/:id`: 404 when absent; then the handler evaluates
`room.lecturer.toString()`, which throws on `null` and lands in the
catch-all 500; then 403 for a non-owner; else 200 with the room. -/
def getRoomById (store : List Room) (roomId userId : Nat) : ApiOutcome :=
  match findById store roomId with
  | none => ApiOutcome.notFound
  | some room =>
    match room.lecturer with
    | none => ApiOutcome.serverError
    | some l =>
      if l ≠ userId then ApiOutcome.forbidden
      else ApiOutcome.ok room

/-- `PUT /api/rooms/:id/toggle-visibility`: same 404 / thrown-null-500 /
403 ladder, then flips `questionsVisible` and saves. -/
def toggleVisibility (store : List Room) (roomId userId : Nat) :
    ApiOutcome × List Room :=
  match findById store roomId with
  | none => (ApiOutcome.notFound, store)
  | some room =>
    match room.lecturer with
    | none => (ApiOutcome.serverError, store)
    | some l =>
      if l ≠ userId then (ApiOutcome.forbidden, store)
      else
        let room1 := { room with questionsVisible := !room.questionsVisible }
        (ApiOutcome.ok room1, saveRoom store room1)

/-- `PUT /api/rooms/:id/close`: 404 / thrown-null-500 / 403, then a 400
`'Room is already closed'` guard, then sets `status = 'closed'` and
stamps `closedAt` before saving. -/
def closeRoom (store : List Room) (roomId userId now : Nat) :
    ApiOutcome × List Room :=
  match findById store roomId with
  | none => (ApiOutcome.notFound, store)
  | some room =>
    match room.lecturer with
    | none => (ApiOutcome.serverError, store)
    | some l =>
      if l ≠ userId then (ApiOutcome.forbidden, store)
      else if room.status = RoomStatus.closed then (ApiOutcome.alreadyClosedError, store)
      else
        let room1 := { room with status := RoomStatus.closed, closedAt := some now }
        (ApiOutcome.ok room1, saveRoom store room1)

/-- `DELETE /api/rooms/:id`: 404 / thrown-null-500 / 403, then
`Question.deleteMany({ room: room._id })` followed by `room.deleteOne()`. -/
def deleteRoom (store : List Room) (questions : List Question)
    (roomId userId : Nat) : ApiOutcome × List Room × List Question :=
  match findById store roomId with
  | none => (ApiOutcome.notFound, store, questions)
  | some room =>
    match room.lecturer with
    | none => (ApiOutcome.serverError, store, questions)
    | some l =>
      if l ≠ userId then (ApiOutcome.forbidden, store, questions)
      else
        (ApiOutcome.okDeleted,
         store.filter (fun r => !decide (r.id = room.id)),
         questions.filter (fun q => !decide (q.room = room.id)))

/-- Modelled from the spec: the question routes (`routes/questions.js`) and
the Question model file are not among the available sources, so the upvote
toggle is taken from the spec's words — "idempotent add/remove of
`voterToken` in `upvotedBy`; recomputes `upvoteCount`". -/
def toggleUpvote (q : Question) (token : String) : Question :=
  if token ∈ q.upvotedBy then
    let remaining := q.upvotedBy.erase token
    { q with upvotedBy := remaining, upvotes := remaining.length }
  else
    let added := token :: q.upvotedBy
    { q with upvotedBy := added, upvotes := added.length }

/-! ### Concrete fixtures used by witnesses and counterexamples -/

def roomClosedA : Room :=
  { id := 1, roomName := "Algebra", roomCode := "ABC123", lecturer := some 1,
    lecturerName := "Dr Smith", questionsVisible := true, isOneTime := false,
    expiresAt := none, status := RoomStatus.closed, questionCount := 0,
    studentsCount := 0, createdAt := 0, closedAt := some 5 }

def roomAAA : Room :=
  { id := 3, roomName := "R", roomCode := "AAAAAA", lecturer := some 1,
    lecturerName := "Dr", questionsVisible := true, isOneTime := false,
    expiresAt := none, status := RoomStatus.active, questionCount := 0,
    studentsCount := 0, createdAt := 0, closedAt := none }

/-- A random stream that always draws the first alphabet character. -/
def randA : Nat → Fin 36 := fun _ => 0

/-- A random stream whose first 66 draws (candidates 0..10) give `AAAAAA`
and whose later draws give `BBBBBB`. -/
def randCollide : Nat → Fin 36 := fun n => if n < 66 then 0 else 1

/-! ### Code generator lemmas -/

theorem charOf_mem (i : Fin 36) : charOf i ∈ alphabetList :=
  List.get_mem _ _ _

theorem drawCode_length (rand : Nat → Fin 36) (k : Nat) :
    (drawCode rand k).length = 6 := rfl

theorem drawCode_mem (rand : Nat → Fin 36) (k : Nat) :
    ∀ ch ∈ (drawCode rand k).toList, ch ∈ alphabetList := by
  intro ch hch
  simp only [drawCode, String.toList, String.mk, List.mem_map] at hch
  obtain ⟨i, _, rfl⟩ := hch
  exact charOf_mem _

theorem generateRoomCodeAux_valid (store : List Room) (rand : Nat → Fin 36)
    (fuel k : Nat) (c : String) (j : Nat)
    (h : generateRoomCodeAux store rand fuel k = some (c, j)) :
    c = drawCode rand j ∧ existsCode store c = false ∧ k ≤ j ∧
      ∀ i, k ≤ i → i < j → existsCode store (drawCode rand i) = true := by
  induction fuel generalizing k with
  | zero => simp [generateRoomCodeAux] at h
  | succ n ih =>
    rw [generateRoomCodeAux] at h
    by_cases hex : existsCode store (drawCode rand k) = true
    · simp only [hex, if_true] at h
      obtain ⟨hc, hfalse, hle, hall⟩ := ih (k + 1) h
      refine ⟨hc, hfalse, Nat.le_of_succ_le hle, ?_⟩
      intro i hki hij
      rcases Nat.lt_or_ge k i with hk | hk
      · exact hall i hk hij
      · have : i = k := Nat.le_antisymm (Nat.le_of_lt_succ (Nat.lt_succ_of_le hk)) hki
        subst this
        exact hex
    · simp only [Bool.not_eq_true] at hex
      simp only [hex, Bool.false_eq_true, if_false, Option.some.injEq, Prod.mk.injEq] at h
      obtain ⟨hc, hj⟩ := h
      subst hj
      refine ⟨hc.symm, hc ▸ hex, Nat.le_refl k, ?_⟩
      intro i hki hij
      exact absurd (Nat.lt_of_le_of_lt hki hij) (Nat.lt_irrefl k)

/-- C1: every code returned by `generateRoomCode` has exactly 6 characters,
each drawn from the alphabet `A-Z0-9`, and at the moment it is returned no
room record in the store — of any status, closed ones included — holds the
same code. -/
theorem generateRoomCode_valid (store : List Room) (rand : Nat → Fin 36)
    (fuel : Nat) (c : String) (j : Nat)
    (h : generateRoomCode store rand fuel = some (c, j)) :
    c.length = 6 ∧ (∀ ch ∈ c.toList, ch ∈ alphabetList) ∧
      ∀ r ∈ store, r.roomCode ≠ c := by
  obtain ⟨hc, hfalse, -, -⟩ := generateRoomCodeAux_valid store rand fuel 0 c j h
  subst hc
  refine ⟨drawCode_length rand j, drawCode_mem rand j, ?_⟩
  intro r hr heq
  have hany : (store.any fun r => decide (r.roomCode = drawCode rand j)) = true := by
    simp only [List.any_eq_true, decide_eq_true_eq]
    exact ⟨r, hr, heq⟩
  rw [existsCode] at hfalse
  rw [hfalse] at hany
  exact Bool.noConfusion hany

theorem generateRoomCode_valid_witness :
    ("AAAAAA".length = 6 ∧ (∀ ch ∈ "AAAAAA".toList, ch ∈ alphabetList) ∧
      ∀ r ∈ ([] : List Room), r.roomCode ≠ "AAAAAA") :=
  generateRoomCode_valid [] randA 1 "AAAAAA" 0 (by decide)

/-- C5 (counterexample): with one stored room holding `AAAAAA` and a random
stream that keeps drawing `AAAAAA` for the first 11 candidates, the
generator performs 11 colliding draws — beyond any threshold of about 10 —
and then simply returns the 12th candidate: no error is ever produced. -/
theorem generateRoomCode_no_retry_cap :
    generateRoomCode [roomAAA] randCollide 20 = some ("BBBBBB", 11) ∧
      ∀ i, i < 11 → existsCode [roomAAA] (drawCode randCollide i) = true := by
  decide

/-- C5 (amended): the collision loop of `generateRoomCode` is not capped:
however many leading candidates collide, the generator keeps re-drawing and
returns the first unused code, with every earlier draw having collided. -/
theorem generateRoomCode_unbounded_retry (store : List Room)
    (rand : Nat → Fin 36) (fuel : Nat) (c : String) (j : Nat)
    (h : generateRoomCode store rand fuel = some (c, j)) :
    c = drawCode rand j ∧ existsCode store c = false ∧
      ∀ i, i < j → existsCode store (drawCode rand i) = true := by
  obtain ⟨hc, hfalse, -, hall⟩ := generateRoomCodeAux_valid store rand fuel 0 c j h
  exact ⟨hc, hfalse, fun i hij => hall i (Nat.zero_le i) hij⟩

theorem generateRoomCode_unbounded_retry_witness :
    ("BBBBBB" = drawCode randCollide 11 ∧
      existsCode [roomAAA] "BBBBBB" = false ∧
      ∀ i, i < 11 → existsCode [roomAAA] (drawCode randCollide i) = true) :=
  generateRoomCode_unbounded_retry [roomAAA] randCollide 20 "BBBBBB" 11 (by decide)

/-! ### Join route -/

/-- C2 (counterexample): the join route answers with the exact same
not-found outcome (404, `'Invalid room code or room is closed'`) whether
the store holds a closed room with the requested code or no room at all —
it never distinguishes a `RoomClosed` failure from `RoomNotFound`. -/
theorem joinRoom_closed_not_distinguished :
    roomClosedA.status = RoomStatus.closed ∧ roomClosedA.roomCode = "ABC123" ∧
      (joinRoom [roomClosedA] "ABC123").1 = JoinResult.notFound ∧
      (joinRoom ([] : List Room) "ABC123").1 = JoinResult.notFound := by
  decide

/-- C2 (amended): for a nonempty submitted code, whenever every room holding
the uppercased code is closed — which covers the case of no such room at
all — the join fails with the single merged not-found outcome; only when the
lookup finds an active room does the route increment `studentsCount`, save,
and return the room summary. -/
theorem joinRoom_unified_failure (store : List Room) (code : String)
    (hne : code ≠ "") :
    ((∀ r ∈ store, r.roomCode = toUpperString code → r.status = RoomStatus.closed) →
      (joinRoom store code).1 = JoinResult.notFound) ∧
    (∀ room, findOneActive store (toUpperString code) = some room →
      joinRoom store code =
        (JoinResult.joined (roomSummary { room with studentsCount := room.studentsCount + 1 }),
         saveRoom store { room with studentsCount := room.studentsCount + 1 })) := by
  constructor
  · intro hall
    have hnone : findOneActive store (toUpperString code) = none := by
      rw [findOneActive, List.find?_eq_none]
      intro r hr
      simp only [Bool.and_eq_true, decide_eq_true_eq, not_and]
      intro hcode hstat
      have := hall r hr hcode
      rw [hstat] at this
      exact RoomStatus.noConfusion this
    simp [joinRoom, hne, hnone]
  · intro room hfind
    simp [joinRoom, hne, hfind]

theorem joinRoom_unified_failure_witness :
    (joinRoom [roomClosedA] "abc123").1 = JoinResult.notFound :=
  (joinRoom_unified_failure [roomClosedA] "abc123" (by decide)).1 (by decide)

/-- One-time room whose `expiresAt` (1000 ms) is long past, but whose stored
`status` is still `'active'`. -/
def roomExpired : Room :=
  { id := 2, roomName := "Guest Room", roomCode := "ZZTOP1", lecturer := none,
    lecturerName := "Guest", questionsVisible := true, isOneTime := true,
    expiresAt := some 1000, status := RoomStatus.active, questionCount := 0,
    studentsCount := 0, createdAt := 0, closedAt := none }

/-- C3 (evaluation at the failing input): the join handler never reads
`expiresAt` or the clock — its embedding takes no time argument at all — so
joining a one-time room whose expiry lies in the past still succeeds and
increments `studentsCount`, instead of being rejected like a closed room. -/
theorem joinRoom_expired_oneTime_succeeds :
    roomExpired.isOneTime = true ∧ roomExpired.expiresAt = some 1000 ∧
      roomExpired.status = RoomStatus.active ∧
      (joinRoom [roomExpired] "ZZTOP1").1 =
        JoinResult.joined (roomSummary { roomExpired with studentsCount := 1 }) := by
  decide

/-- Codes are pairwise distinct across the store (the schema's unique index
on `roomCode`). -/
def uniqueCodes (store : List Room) : Prop :=
  store.Pairwise (fun a b => a.roomCode ≠ b.roomCode)

theorem findOneActive_of_mem (store : List Room) (room : Room)
    (hmem : room ∈ store) (hact : room.status = RoomStatus.active)
    (huniq : uniqueCodes store) :
    findOneActive store room.roomCode = some room := by
  induction store with
  | nil => cases hmem
  | cons r rest ih =>
    rw [uniqueCodes, List.pairwise_cons] at huniq
    obtain ⟨hhead, htail⟩ := huniq
    rcases List.mem_cons.mp hmem with rfl | hmem2
    · simp [findOneActive, List.find?_cons, hact]
    · have hne : ¬(r.roomCode = room.roomCode) := hhead room hmem2
      have hrest := ih hmem2 htail
      rw [findOneActive] at hrest ⊢
      simp [List.find?_cons, hne, hrest]

/-- C10: room-code lookup on join is case-insensitive — for every active
room in a store with unique codes, submitting any string that uppercases to
the room's code (for instance its all-lowercase form) joins that room. -/
theorem joinRoom_case_insensitive (store : List Room) (room : Room)
    (s : String) (hmem : room ∈ store) (hact : room.status = RoomStatus.active)
    (huniq : uniqueCodes store) (hup : toUpperString s = room.roomCode)
    (hne : s ≠ "") :
    (joinRoom store s).1 =
      JoinResult.joined (roomSummary { room with studentsCount := room.studentsCount + 1 }) := by
  have hfind := findOneActive_of_mem store room hmem hact huniq
  simp [joinRoom, hne, hup, hfind]

/-- Active room with the spec scenario's example code `X7K2QA`. -/
def roomX7 : Room :=
  { id := 4, roomName := "CS101 Lecture", roomCode := "X7K2QA", lecturer := some 2,
    lecturerName := "Dr Jones", questionsVisible := true, isOneTime := false,
    expiresAt := none, status := RoomStatus.active, questionCount := 0,
    studentsCount := 0, createdAt := 0, closedAt := none }

theorem joinRoom_case_insensitive_witness :
    (joinRoom [roomX7] "x7k2qa").1 =
      JoinResult.joined (roomSummary { roomX7 with studentsCount := roomX7.studentsCount + 1 }) :=
  joinRoom_case_insensitive [roomX7] roomX7 "x7k2qa" (by decide) (by decide)
    (by simp [uniqueCodes]) (by decide) (by decide)

/-! ### Create route -/

/-- C4 (counterexample): `roomClosedA` is closed, yet it still blocks its
owner from creating a fresh room under the same name — the duplicate-name
lookup carries no status filter, so the claim's "if the owner's only room
with that name is closed, creation succeeds" fails. -/
theorem createRoom_blocked_by_closed_room :
    roomClosedA.status = RoomStatus.closed ∧ roomClosedA.lecturer = some 1 ∧
      roomClosedA.roomName = "Algebra" ∧
      (createRoom [roomClosedA] 1 "Dr Smith" "Algebra" none 9 "QQQQQQ" 0).1 =
        CreateResult.duplicateName := by
  decide

/-- C4 (amended): with a nonempty requested name, `createRoom` fails with
the duplicate-name error exactly when the store holds any room — active or
closed — owned by the caller with the same trimmed, case-sensitive name. -/
theorem createRoom_duplicate_iff (store : List Room) (userId : Nat)
    (userName roomName : String) (vis : Option Bool) (newId : Nat)
    (newCode : String) (now : Nat) (hne : roomName ≠ "") :
    ((createRoom store userId userName roomName vis newId newCode now).1 =
        CreateResult.duplicateName ↔
      ∃ r ∈ store, r.lecturer = some userId ∧ r.roomName = jsTrim roomName) := by
  rcases hfind : store.find? (fun r =>
      decide (r.lecturer = some userId) && decide (r.roomName = jsTrim roomName))
    with - | r
  · constructor
    · intro h
      simp [createRoom, hne, hfind] at h
    · rintro ⟨r, hr, h1, h2⟩
      rw [List.find?_eq_none] at hfind
      have := hfind r hr
      simp only [Bool.and_eq_true, decide_eq_true_eq, not_and] at this
      exact absurd h2 (this h1)
  · constructor
    · intro _
      have hp := List.find?_some hfind
      have hmem := List.mem_of_find?_eq_some hfind
      simp only [Bool.and_eq_true, decide_eq_true_eq] at hp
      exact ⟨r, hmem, hp.1, hp.2⟩
    · intro _
      simp [createRoom, hne, hfind]

theorem createRoom_duplicate_iff_witness :
    ((createRoom [roomClosedA] 1 "Dr Smith" "Algebra" none 9 "QQQQQQ" 0).1 =
        CreateResult.duplicateName ↔
      ∃ r ∈ [roomClosedA], r.lecturer = some 1 ∧ r.roomName = jsTrim "Algebra") :=
  createRoom_duplicate_iff [roomClosedA] 1 "Dr Smith" "Algebra" none 9 "QQQQQQ" 0
    (by decide)

/-! ### Owner-gated routes on one-time rooms -/

/-- C6: when the room identified by `roomId` exists but has a null
`lecturer` — which is exactly how one-time rooms are created — every one of
the four owner-gated handlers evaluates `room.lecturer.toString()` on
`null`, throws, and is mapped by the catch-all to a 500 server error, for
every caller; none of them ever reaches the Forbidden or success paths. -/
theorem oneTime_room_owner_ops_serverError (store : List Room)
    (questions : List Question) (roomId userId now : Nat) (room : Room)
    (hfind : findById store roomId = some room) (hnull : room.lecturer = none) :
    getRoomById store roomId userId = ApiOutcome.serverError ∧
      (toggleVisibility store roomId userId).1 = ApiOutcome.serverError ∧
      (closeRoom store roomId userId now).1 = ApiOutcome.serverError ∧
      (deleteRoom store questions roomId userId).1 = ApiOutcome.serverError := by
  refine ⟨?_, ?_, ?_, ?_⟩ <;>
    simp [getRoomById, toggleVisibility, closeRoom, deleteRoom, hfind, hnull]

theorem oneTime_room_owner_ops_serverError_witness :
    getRoomById [roomExpired] 2 7 = ApiOutcome.serverError ∧
      (toggleVisibility [roomExpired] 2 7).1 = ApiOutcome.serverError ∧
      (closeRoom [roomExpired] 2 7 99).1 = ApiOutcome.serverError ∧
      (deleteRoom [roomExpired] ([] : List Question) 2 7).1 = ApiOutcome.serverError :=
  oneTime_room_owner_ops_serverError [roomExpired] [] 2 7 99 roomExpired
    (by decide) (by decide)

/-! ### Delete route -/

theorem findById_id (store : List Room) (roomId : Nat) (room : Room)
    (h : findById store roomId = some room) : room.id = roomId := by
  have := List.find?_some h
  simpa using this

/-- C7: a successful owner delete removes the room record and every
question whose `room` field references it: afterwards a question lookup by
the deleted room's id is empty, and the room can no longer be found. -/
theorem deleteRoom_cascades (store : List Room) (questions : List Question)
    (roomId userId : Nat) (room : Room)
    (hfind : findById store roomId = some room)
    (hown : room.lecturer = some userId) :
    (deleteRoom store questions roomId userId).1 = ApiOutcome.okDeleted ∧
      (deleteRoom store questions roomId userId).2.2.filter
        (fun q => decide (q.room = roomId)) = [] ∧
      findById (deleteRoom store questions roomId userId).2.1 roomId = none := by
  have hid : room.id = roomId := findById_id store roomId room hfind
  simp only [deleteRoom, hfind, hown]
  rw [if_neg (fun h => h rfl)]
  refine ⟨rfl, ?_, ?_⟩
  · rw [List.filter_eq_nil_iff]
    intro q hq
    rw [List.mem_filter] at hq
    obtain ⟨-, hq2⟩ := hq
    simp only [hid, Bool.not_eq_true', decide_eq_false_iff_not] at hq2
    simpa using hq2
  · rw [findById, List.find?_eq_none]
    intro r hr
    rw [List.mem_filter] at hr
    obtain ⟨-, hr2⟩ := hr
    simp only [hid, Bool.not_eq_true', decide_eq_false_iff_not] at hr2
    simpa using hr2

def questionQ1 : Question :=
  { id := 1, room := 4, questionText := "What is polymorphism?",
    studentTag := "Student 1", upvotes := 0, upvotedBy := [] }

def questionQ2 : Question :=
  { id := 2, room := 9, questionText := "Why is the sky blue?",
    studentTag := "Student 2", upvotes := 0, upvotedBy := [] }

theorem deleteRoom_cascades_witness :
    (deleteRoom [roomX7] [questionQ1, questionQ2] 4 2).1 = ApiOutcome.okDeleted ∧
      (deleteRoom [roomX7] [questionQ1, questionQ2] 4 2).2.2.filter
        (fun q => decide (q.room = 4)) = [] ∧
      findById (deleteRoom [roomX7] [questionQ1, questionQ2] 4 2).2.1 4 = none :=
  deleteRoom_cascades [roomX7] [questionQ1, questionQ2] 4 2 roomX7
    (by decide) (by decide)

/-! ### Close route -/

/-- C9: called by the room's owner, the close route sets `status = closed`
and stamps `closedAt` when the room is still active, and fails with the
already-closed error, leaving the store untouched, when the room is already
closed. -/
theorem closeRoom_owner_behavior (store : List Room) (roomId userId now : Nat)
    (room : Room) (hfind : findById store roomId = some room)
    (hown : room.lecturer = some userId) :
    (room.status = RoomStatus.active →
      closeRoom store roomId userId now =
        (ApiOutcome.ok { room with status := RoomStatus.closed, closedAt := some now },
         saveRoom store { room with status := RoomStatus.closed, closedAt := some now })) ∧
    (room.status = RoomStatus.closed →
      closeRoom store roomId userId now = (ApiOutcome.alreadyClosedError, store)) := by
  constructor
  · intro hact
    simp [closeRoom, hfind, hown, hact]
  · intro hcl
    simp [closeRoom, hfind, hown, hcl]

theorem closeRoom_owner_behavior_witness :
    (roomX7.status = RoomStatus.active →
      closeRoom [roomX7] 4 2 777 =
        (ApiOutcome.ok { roomX7 with status := RoomStatus.closed, closedAt := some 777 },
         saveRoom [roomX7] { roomX7 with status := RoomStatus.closed, closedAt := some 777 })) ∧
    (roomX7.status = RoomStatus.closed →
      closeRoom [roomX7] 4 2 777 = (ApiOutcome.alreadyClosedError, [roomX7])) :=
  closeRoom_owner_behavior [roomX7] 4 2 777 roomX7 (by decide) (by decide)

/-! ### Upvote toggle -/

/-- C8: under the data-model invariant (`upvoteCount` equals the size of
`upvotedBy`, which holds no duplicates), toggling twice with one voter
token restores the original `upvoteCount`, and after any single toggle the
count again equals the size of `upvotedBy`, in which the token occurs at
most once and no entry is duplicated. -/
theorem toggleUpvote_idempotent_invariant (q : Question) (token : String)
    (hinv : q.upvotes = q.upvotedBy.length) (hnd : q.upvotedBy.Nodup) :
    (toggleUpvote (toggleUpvote q token) token).upvotes = q.upvotes ∧
      (toggleUpvote q token).upvotes = (toggleUpvote q token).upvotedBy.length ∧
      (toggleUpvote q token).upvotedBy.count token ≤ 1 ∧
      (toggleUpvote q token).upvotedBy.Nodup := by
  by_cases hmem : token ∈ q.upvotedBy
  · have h1 : toggleUpvote q token =
        { q with upvotedBy := q.upvotedBy.erase token,
                 upvotes := (q.upvotedBy.erase token).length } := by
      rw [toggleUpvote, if_pos hmem]
    have hnm : token ∉ q.upvotedBy.erase token := by
      intro hc
      exact absurd rfl (hnd.mem_erase_iff.mp hc).1
    have h2 : toggleUpvote (toggleUpvote q token) token =
        { q with upvotedBy := token :: q.upvotedBy.erase token,
                 upvotes := (token :: q.upvotedBy.erase token).length } := by
      rw [h1, toggleUpvote, if_neg hnm]
    have hlen : (q.upvotedBy.erase token).length + 1 = q.upvotedBy.length :=
      List.length_erase_add_one hmem
    refine ⟨?_, ?_, ?_, ?_⟩
    · rw [h2]
      simp only [List.length_cons]
      omega
    · rw [h1]
    · rw [h1]
      simp only
      rw [List.count_eq_zero_of_not_mem hnm]
      exact Nat.zero_le 1
    · rw [h1]
      exact hnd.erase token
  · have h1 : toggleUpvote q token =
        { q with upvotedBy := token :: q.upvotedBy,
                 upvotes := (token :: q.upvotedBy).length } := by
      rw [toggleUpvote, if_neg hmem]
    have hmem2 : token ∈ token :: q.upvotedBy := List.mem_cons_self token _
    have h2 : toggleUpvote (toggleUpvote q token) token =
        { q with upvotedBy := (token :: q.upvotedBy).erase token,
                 upvotes := ((token :: q.upvotedBy).erase token).length } := by
      rw [h1, toggleUpvote, if_pos hmem2]
    refine ⟨?_, ?_, ?_, ?_⟩
    · rw [h2]
      simp only [List.erase_cons_head]
      exact hinv.symm
    · rw [h1]
    · rw [h1]
      simp only
      rw [List.count_cons_self, List.count_eq_zero_of_not_mem hmem]
    · rw [h1]
      exact List.nodup_cons.mpr ⟨hmem, hnd⟩

theorem toggleUpvote_idempotent_invariant_witness :
    (toggleUpvote (toggleUpvote questionQ1 "tok1") "tok1").upvotes = questionQ1.upvotes ∧
      (toggleUpvote questionQ1 "tok1").upvotes =
        (toggleUpvote questionQ1 "tok1").upvotedBy.length ∧
      (toggleUpvote questionQ1 "tok1").upvotedBy.count "tok1" ≤ 1 ∧
      (toggleUpvote questionQ1 "tok1").upvotedBy.Nodup :=
  toggleUpvote_idempotent_invariant questionQ1 "tok1" (by decide) (by decide)
